import Mathlib

/-!
Shallow embedding of `src/cargo/core/compiler/build_context/target_info.rs`:
the target-info probing and flag-resolution subsystem of the build planner.

Strings are Lean `String`s, but every string operation the source relies on
(`split`, `trim`, `contains`, `starts_with`, `ends_with`, `to_lowercase`,
`replace`, `lines`) is implemented here by structural recursion over the
underlying character list, mirroring the semantics of the corresponding
Rust `str` methods, so that all definitions evaluate inside the kernel.
-/

/-! ## String primitives (Rust `str` method semantics) -/

/-- Helper: if `ps` is a prefix of `l` (by character equality), return the rest of `l`. -/
def dropPrefixQ : List Char → List Char → Option (List Char)
  | [], l => some l
  | _ :: _, [] => none
  | p :: ps, x :: xs => if p == x then dropPrefixQ ps xs else none

/-- Fuel-driven worker for splitting a character list on a non-empty separator
`c :: cs`, leftmost-first and non-overlapping, exactly as Rust `str::split`. -/
def splitOnAux (c : Char) (cs : List Char) : Nat → List Char → List (List Char)
  | _, [] => [[]]
  | 0, l => [l]
  | fuel + 1, x :: xs =>
    match dropPrefixQ (c :: cs) (x :: xs) with
    | some rest => [] :: splitOnAux c cs fuel rest
    | none =>
      match splitOnAux c cs fuel xs with
      | [] => [[x]]
      | y :: ys => (x :: y) :: ys

/-- Rust `str::split` on a string pattern (for an empty pattern we never rely
on the result; Rust would yield char-boundary pieces, we return the string whole). -/
def strSplitOn (s sep : String) : List String :=
  match sep.data with
  | [] => [s]
  | c :: cs => (splitOnAux c cs s.data.length s.data).map String.mk

/-- Worker for substring search with non-empty pattern `c :: cs`. -/
def containsAux (c : Char) (cs : List Char) : List Char → Bool
  | [] => false
  | x :: xs => (dropPrefixQ (c :: cs) (x :: xs)).isSome || containsAux c cs xs

/-- Rust `str::contains` for string patterns. -/
def strContains (s pat : String) : Bool :=
  match pat.data with
  | [] => true
  | c :: cs => containsAux c cs s.data

/-- Rust `str::starts_with` for string patterns. -/
def strStartsWith (s pat : String) : Bool :=
  (dropPrefixQ pat.data s.data).isSome

/-- Rust `str::ends_with` for string patterns. -/
def strEndsWith (s pat : String) : Bool :=
  (dropPrefixQ pat.data.reverse s.data.reverse).isSome

/-- Rust `str::trim`: strip leading and trailing whitespace. -/
def strTrim (s : String) : String :=
  String.mk (((s.data.dropWhile Char.isWhitespace).reverse.dropWhile Char.isWhitespace).reverse)

/-- Rust `str::to_lowercase` (ASCII part, which is all the source applies it to). -/
def strToLower (s : String) : String :=
  String.mk (s.data.map Char.toLower)

/-- Rust `str::replace`: replace every non-overlapping occurrence of `pat` by `rep`. -/
def strReplace (s pat rep : String) : String :=
  match pat.data with
  | [] => s
  | c :: cs => String.mk (List.intercalate rep.data (splitOnAux c cs s.data.length s.data))

/-- Rust `str::lines`: split on newline, drop a final empty piece produced by a
trailing newline, and strip one trailing carriage return from each line. -/
def rustLines (s : String) : List String :=
  let parts := strSplitOn s "\n"
  let parts := if parts.getLast? = some "" then parts.dropLast else parts
  parts.map (fun l => if strEndsWith l "\r" then String.mk l.data.dropLast else l)

/-! ## Data model -/

/-- Platform discriminator: host, or a named target triple (`CompileKind` in the
source; `CompileTarget` is its interned triple, carried here as the string). -/
inductive CompileKind where
  | Host : CompileKind
  | Target (triple : String) : CompileKind
deriving DecidableEq

/-- Source `CompileKind::is_host`. -/
def CompileKind.is_host : CompileKind → Bool
  | .Host => true
  | .Target _ => false

/-- Short name of the platform a `CompileKind` denotes, given the host triple
(source: `rustc.host` for host, `target.short_name()` for a target). -/
def CompileKind.short_name : CompileKind → String → String
  | .Host, host_triple => host_triple
  | .Target t, _ => t

/-- One conditional-compilation predicate (`Cfg` from the external
`cargo_platform` crate): a bare name such as `unix`, or a name=value pair such
as `target_os="linux"`. -/
inductive Cfg where
  | name (n : String) : Cfg
  | keyPair (k v : String) : Cfg
deriving DecidableEq

/-- Build-level config section (`build.rustflags` / `build.rustdocflags` of the
external config store consumed by `env_args`). -/
structure BuildConfig where
  rustflags : Option (List String)
  rustdocflags : Option (List String)

/-- The slice of the external layered configuration store that `env_args`
consults: typed lookup of a dotted string key as a string list, the enumeration
of `target.cfg(...)` sections (each with its optional `rustflags` list, the one
flag field the source reads from such sections), and the `build` section. -/
structure Config where
  get : String → Option (List String)
  target_cfgs : List (String × Option (List String))
  build_config : BuildConfig

/-- Build target kinds (`TargetKind` in the source workspace model); only
equality against `Bin` and `ExampleBin` is used by this subsystem. -/
inductive TargetKind where
  | Lib (kinds : List String) : TargetKind
  | Bin : TargetKind
  | Test : TargetKind
  | Bench : TargetKind
  | ExampleLib (kinds : List String) : TargetKind
  | ExampleBin : TargetKind
  | CustomBuild : TargetKind
deriving DecidableEq

/-- Kind of each file generated by a unit (source `FileFlavor`). -/
inductive FileFlavor where
  | Normal : FileFlavor
  | Auxiliary : FileFlavor
  | Linkable (rmeta : Bool) : FileFlavor
  | DebugInfo : FileFlavor
deriving DecidableEq

/-- Type of each file generated by a unit (source `FileType`). The source field
`prefix` is called `prefix_str` here. -/
structure FileType where
  flavor : FileFlavor
  suffix : String
  prefix_str : String
  should_replace_hyphens : Bool
deriving DecidableEq

/-- Source `FileType::filename`: optionally rewrite hyphens to underscores in
the stem, then wrap it in the prefix and suffix. -/
def FileType.filename (ft : FileType) (stem : String) : String :=
  let stem := if ft.should_replace_hyphens then strReplace stem "-" "_" else stem
  ft.prefix_str ++ stem ++ ft.suffix

/-- The fixed, well-known crate types probed during construction
(source constant `KNOWN_CRATE_TYPES`). -/
def KNOWN_CRATE_TYPES : List String :=
  ["bin", "rlib", "dylib", "cdylib", "staticlib", "proc-macro"]

/-- The information `TargetInfo` holds for one platform. Paths (`PathBuf`) are
modelled as their component lists; the crate-type cache (`RefCell<HashMap>`)
is an association list threaded explicitly through queries; the saved probe
template process is carried as its rendered command line. -/
structure TargetInfoData where
  crate_type_process : String
  crate_types : List (String × Option (String × String))
  cfg : List Cfg
  sysroot : List String
  sysroot_host_libdir : List String
  sysroot_target_libdir : List String
  rustflags : List String
  rustdocflags : List String
  supports_bitcode_in_rlib : Option Bool

/-! ## Flag resolution (source `env_args`) -/

/-- Source `env_args`: resolve the extra flags of family `name` (`RUSTFLAGS` or
`RUSTDOCFLAGS`) for platform `kind`. `env` is the process environment
(`std::env::var`), `matches_key` is `CfgExpr::matches_key` from the external
`cargo_platform` crate, and `config` is the external configuration store. -/
def env_args (env : String → Option String) (matches_key : String → List Cfg → Bool)
    (config : Config) (requested_kind : CompileKind) (host_triple : String)
    (target_cfg : Option (List Cfg)) (kind : CompileKind) (name : String) :
    List String :=
  -- Cross-compilation guard: no flags for host units when a target was requested.
  if !requested_kind.is_host && kind.is_host then [] else
  -- Environment override.
  match env name with
  | some a => ((strSplitOn a " ").map strTrim).filter (fun s => !s.isEmpty)
  | none =>
    let name := strToLower name
    let target := kind.short_name host_triple
    let key := "target." ++ target ++ "." ++ name
    let rustflags := (config.get key).getD []
    let rustflags := rustflags ++
      (match target_cfg with
       | none => []
       | some tcfg =>
         (config.target_cfgs.filterMap
           (fun p =>
             match p.2 with
             | some fl => if matches_key p.1 tcfg then some fl else none
             | none => none)).flatten)
    if !rustflags.isEmpty then rustflags
    else
      match (if name == "rustflags" then config.build_config.rustflags
             else config.build_config.rustdocflags) with
      | some list => list
      | none => []

/-- Layer 3 of the precedence written as the spec words it: the per-platform
entry `target.<short-name>.<family>` concatenated with the flag list of every
configured predicate-scoped section whose expression matches the resolved
predicate list (predicate-scoped sections consulted only when a predicate list
is supplied). -/
def combinedTargetFlags (matches_key : String → List Cfg → Bool) (config : Config)
    (target fam : String) (target_cfg : Option (List Cfg)) : List String :=
  ((config.get ("target." ++ target ++ "." ++ fam)).getD []) ++
    (match target_cfg with
     | none => []
     | some tcfg =>
       (config.target_cfgs.filterMap
         (fun p =>
           match p.2 with
           | some fl => if matches_key p.1 tcfg then some fl else none
           | none => none)).flatten)

/-! ## Probe output parsing (source `output_err_info`, `parse_crate_type`) -/

/-- Source `output_err_info`: the diagnostic block appended to every parse
error, carrying the full command line and the captured stdout/stderr. -/
def output_err_info (cmd stdout stderr : String) : String :=
  let result := "command was: " ++ cmd ++ "\n"
  let result := if stdout.isEmpty then result else result ++ "\n--- stdout\n" ++ stdout
  let result := if stderr.isEmpty then result else result ++ "\n--- stderr\n" ++ stderr
  if stdout.isEmpty && stderr.isEmpty then result ++ "(no output received)" else result

/-- The stderr scan at the top of source `parse_crate_type`: some stderr line
contains "unsupported crate type" or "unknown crate type" together with the
backtick-quoted crate-type name. -/
def crateTypeUnsupported (error crate_type : String) : Bool :=
  (rustLines error).any (fun line =>
    (strContains line "unsupported crate type" || strContains line "unknown crate type")
      && strContains line ("crate type `" ++ crate_type ++ "`"))

/-- Source `parse_crate_type`. The stdout line cursor (`str::Lines`) is the
explicit list of remaining lines; on success the advanced cursor is returned
alongside the naming result. `cmd` is the rendered probe command line. -/
def parse_crate_type (crate_type cmd output error : String) (lines : List String) :
    Except String (Option (String × String) × List String) :=
  if crateTypeUnsupported error crate_type then .ok (none, lines) else
  match lines with
  | [] =>
    .error ("malformed output when learning about crate-type " ++ crate_type
      ++ " information\n" ++ output_err_info cmd output error)
  | line :: rest =>
    match strSplitOn (strTrim line) "___" with
    | p :: s :: _ => .ok (some (p, s), rest)
    | _ =>
      .error ("output of --print=file-names has changed in the compiler, cannot parse\n"
        ++ output_err_info cmd output error)

/-- The loop in `TargetInfo::new` that calls `parse_crate_type` once per
well-known crate type, threading the stdout line cursor, and accumulates the
crate-type map (insertion order kept, since the keys are distinct). -/
def parseCrateTypes (cmd output error : String) :
    List String → List String →
    Except String (List (String × Option (String × String)) × List String)
  | [], lines => .ok ([], lines)
  | t :: ts, lines =>
    match parse_crate_type t cmd output error lines with
    | .error e => .error e
    | .ok (res, lines1) =>
      match parseCrateTypes cmd output error ts lines1 with
      | .error e => .error e
      | .ok (m, rest) => .ok ((t, res) :: m, rest)

/-- Modelled from the spec: predicate-line parsing (`Cfg::from_str` lives in
the external `cargo_platform` crate, not in this repository) — a line is a
well-formed bare name, or a name=quoted-value pair; anything else fails. -/
def Cfg.from_str (s : String) : Except String Cfg :=
  let isIdent := fun (n : String) => !n.isEmpty && n.data.all (fun c => c.isAlphanum || c == '_')
  match strSplitOn s "=" with
  | [n] =>
    if isIdent n then .ok (Cfg.name n)
    else .error ("failed to parse `" ++ s ++ "` as a cfg expression")
  | [n, v] =>
    if isIdent n && strStartsWith v "\"" && strEndsWith v "\"" && 2 ≤ v.data.length then
      .ok (Cfg.keyPair n (String.mk (v.data.drop 1).dropLast))
    else .error ("failed to parse `" ++ s ++ "` as a cfg expression")
  | _ => .error ("failed to parse `" ++ s ++ "` as a cfg expression")

/-- Source `TargetInfo::not_user_specific_cfg`: drop the bare `proc_macro`
marker (and nothing else — the comment in the source records that
`debug_assertions` deliberately is not filtered). -/
def TargetInfo.not_user_specific_cfg (cfg : Except String Cfg) : Bool :=
  match cfg with
  | .ok (Cfg.name cfg_name) => if cfg_name == "proc_macro" then false else true
  | _ => true

/-- Rust `collect::<Result<Vec<_>, _>>()`: first error wins, otherwise the list
of successes. -/
def collectResults : List (Except String Cfg) → Except String (List Cfg)
  | [] => .ok []
  | .error e :: _ => .error e
  | .ok c :: rest =>
    match collectResults rest with
    | .error e => .error e
    | .ok cs => .ok (c :: cs)

/-- The cfg pipeline in `TargetInfo::new`: map `Cfg::from_str` over the
remaining lines, filter with `not_user_specific_cfg` at the result level, and
collect. -/
def collectCfgs (lines : List String) : Except String (List Cfg) :=
  collectResults ((lines.map Cfg.from_str).filter TargetInfo.not_user_specific_cfg)

/-- Source `TargetInfo::new`, after the probe process has run: decode its
captured stdout/stderr and assemble the `TargetInfo`. The probe invocation
itself is external; `cmd` is its rendered command line, `output`/`error` its
captured stdout/stderr, `is_windows` is `cfg!(windows)`, and
`bitcode_probe_ok` is whether the extra host-only `-Cbitcode-in-rlib` probe
invocation succeeded. The preliminary flag resolution (with no cfg list) only
feeds the probe's argument list, hence is absorbed into `cmd` here; flags are
re-resolved at the end with the real cfg list, as in the source. -/
def TargetInfo.new (env : String → Option String) (matches_key : String → List Cfg → Bool)
    (config : Config) (requested_kind : CompileKind) (host_triple : String)
    (kind : CompileKind) (is_windows : Bool) (bitcode_probe_ok : Bool)
    (cmd output error : String) : Except String TargetInfoData :=
  let supports_bitcode_in_rlib : Option Bool :=
    match kind with
    | .Host => some bitcode_probe_ok
    | .Target _ => none
  match parseCrateTypes cmd output error KNOWN_CRATE_TYPES (rustLines output) with
  | .error e => .error e
  | .ok (map, lines1) =>
    match lines1 with
    | [] =>
      .error ("output of --print=sysroot missing when learning about target-specific information from rustc\n"
        ++ output_err_info cmd output error)
    | line :: cfgLines =>
      let sysroot : List String := [line]
      let sysroot_host_libdir := sysroot ++ [if is_windows then "bin" else "lib"]
      let sysroot_target_libdir := sysroot ++ ["lib", "rustlib", kind.short_name host_triple, "lib"]
      match collectCfgs cfgLines with
      | .error e =>
        .error ("failed to parse the cfg from `rustc --print=cfg`, got:\n" ++ output ++ "\n" ++ e)
      | .ok cfg =>
        .ok { crate_type_process := cmd
              crate_types := map
              cfg := cfg
              sysroot := sysroot
              sysroot_host_libdir := sysroot_host_libdir
              sysroot_target_libdir := sysroot_target_libdir
              rustflags := env_args env matches_key config requested_kind host_triple
                (some cfg) kind "RUSTFLAGS"
              rustdocflags := env_args env matches_key config requested_kind host_triple
                (some cfg) kind "RUSTDOCFLAGS"
              supports_bitcode_in_rlib := supports_bitcode_in_rlib }

/-! ## Artifact file-plan computation (source `TargetInfo::file_types`) -/

/-- The plan-construction body of source `TargetInfo::file_types`, given the
discovered naming pair for the crate type: the primary entry first, then the
platform-pattern-matched auxiliary entries in the fixed source order. -/
def make_file_types (crate_type : String) (flavor : FileFlavor) (kind : TargetKind)
    (target_triple pre suffix : String) : List FileType :=
  let ret := [{ flavor := flavor, suffix := suffix, prefix_str := pre,
                should_replace_hyphens := false : FileType }]
  -- See rust-lang/cargo#4500.
  let ret := if strEndsWith target_triple "-windows-msvc" && strEndsWith crate_type "dylib"
      && suffix == ".dll" then
      ret ++ [{ flavor := FileFlavor.Normal, suffix := ".dll.lib", prefix_str := pre,
                should_replace_hyphens := false : FileType }]
    else ret
  -- See rust-lang/cargo#4535.
  let ret := if strStartsWith target_triple "wasm32-" && crate_type == "bin"
      && suffix == ".js" then
      ret ++ [{ flavor := FileFlavor.Auxiliary, suffix := ".wasm", prefix_str := pre,
                should_replace_hyphens := true : FileType }]
    else ret
  -- See rust-lang/cargo#4490, rust-lang/cargo#4960: only uplift debuginfo for binaries.
  let is_apple := strContains target_triple "-apple-"
  let ret := if kind == TargetKind.Bin || (kind == TargetKind.ExampleBin && is_apple) then
      if is_apple then
        ret ++ [{ flavor := FileFlavor.DebugInfo, suffix := ".dSYM", prefix_str := pre,
                  should_replace_hyphens := false : FileType }]
      else if strEndsWith target_triple "-msvc" then
        ret ++ [{ flavor := FileFlavor.DebugInfo, suffix := ".pdb", prefix_str := pre,
                  should_replace_hyphens := true : FileType }]
      else ret
    else ret
  ret

/-- Source `TargetInfo::file_types`: answer from the crate-type naming cache,
or run the lazy discovery probe (`discover_crate_type`, whose external process
invocation is the supplied `discover` function) and memoize its result. The
returned `Nat` counts the probe invocations performed by this call, and the
returned `TargetInfoData` is the post-call state of the instance. -/
def TargetInfo.file_types (discover : String → Except String (Option (String × String)))
    (ti : TargetInfoData) (crate_type : String) (flavor : FileFlavor)
    (kind : TargetKind) (target_triple : String) :
    Except String (Option (List FileType) × TargetInfoData × Nat) :=
  match List.lookup crate_type ti.crate_types with
  | some info =>
    match info with
    | none => .ok (none, ti, 0)
    | some (pre, suffix) =>
      .ok (some (make_file_types crate_type flavor kind target_triple pre suffix), ti, 0)
  | none =>
    match discover crate_type with
    | .error e => .error e
    | .ok value =>
      let ti1 := { ti with crate_types := ti.crate_types ++ [(crate_type, value)] }
      match value with
      | none => .ok (none, ti1, 1)
      | some (pre, suffix) =>
        .ok (some (make_file_types crate_type flavor kind target_triple pre suffix), ti1, 1)

/-- Statement helper: the naming pair a well-formed stdout line denotes (the
first two pieces of the line trimmed and split on the triple underscore). -/
def naming_of_line (line : String) : Option (String × String) :=
  match strSplitOn (strTrim line) "___" with
  | p :: s :: _ => some (p, s)
  | _ => none

/-! ## Claims about flag resolution -/

/-- Claim C2: for every configuration store and every predicate list, if the
originally-requested platform is a named target and the platform whose flags
are being resolved is the host, flag resolution returns the empty list
unconditionally, regardless of any environment variable or any host-scoped or
global config entries. -/
theorem env_args_cross_compilation_guard
    (env : String → Option String) (matches_key : String → List Cfg → Bool)
    (config : Config) (requested_kind : CompileKind) (host_triple : String)
    (target_cfg : Option (List Cfg)) (kind : CompileKind) (name : String)
    (hreq : requested_kind.is_host = false) (hkind : kind.is_host = true) :
    env_args env matches_key config requested_kind host_triple target_cfg kind name = [] := by
  simp [env_args, hreq, hkind]

/-- Claim C3 (general part): when the guard does not apply and the family's
environment variable is set to `v`, flag resolution returns exactly the result
of splitting `v` on single space characters, trimming each token and dropping
empty tokens — no config layer is consulted (the result does not depend on the
configuration store at all). -/
theorem env_args_environment_override
    (env : String → Option String) (matches_key : String → List Cfg → Bool)
    (config : Config) (requested_kind : CompileKind) (host_triple : String)
    (target_cfg : Option (List Cfg)) (kind : CompileKind) (name v : String)
    (hguard : (!requested_kind.is_host && kind.is_host) = false)
    (henv : env name = some v) :
    env_args env matches_key config requested_kind host_triple target_cfg kind name =
      ((strSplitOn v " ").map strTrim).filter (fun s => !s.isEmpty) := by
  simp [env_args, hguard, henv]

/-- Claim C1: with no environment override and the cross-compilation guard not
applying, flag resolution returns the per-platform entry
`target.<short-name>.<family>` concatenated with the flag lists of all matching
predicate-scoped `target.cfg(..)` sections (consulted only when a predicate
list is supplied) when that combination is non-empty, and otherwise the global
`build.<family>` entry when present, else the empty list. -/
theorem env_args_config_precedence
    (env : String → Option String) (matches_key : String → List Cfg → Bool)
    (config : Config) (requested_kind : CompileKind) (host_triple : String)
    (target_cfg : Option (List Cfg)) (kind : CompileKind) (name : String)
    (hguard : (!requested_kind.is_host && kind.is_host) = false)
    (henv : env name = none) :
    env_args env matches_key config requested_kind host_triple target_cfg kind name =
      (if (combinedTargetFlags matches_key config (kind.short_name host_triple)
            (strToLower name) target_cfg).isEmpty then
        (if strToLower name == "rustflags" then config.build_config.rustflags
         else config.build_config.rustdocflags).getD []
      else combinedTargetFlags matches_key config (kind.short_name host_triple)
        (strToLower name) target_cfg) := by
  simp only [env_args, hguard, henv, Bool.false_eq_true, if_false, combinedTargetFlags]
  cases hc : ((config.get ("target." ++ kind.short_name host_triple ++ "." ++ strToLower name)).getD [] ++
      (match target_cfg with
       | none => []
       | some tcfg =>
         (config.target_cfgs.filterMap
           (fun p =>
             match p.2 with
             | some fl => if matches_key p.1 tcfg then some fl else none
             | none => none)).flatten)).isEmpty with
  | true =>
    simp only [hc, Bool.not_true, Bool.false_eq_true, if_false, if_true]
    cases strToLower name == "rustflags" <;>
      cases hr : config.build_config.rustflags <;>
      cases hd : config.build_config.rustdocflags <;> simp [hr, hd]
  | false => simp [hc]

/-- Example configuration store used by the flag-resolution witnesses: a direct
per-platform entry, one matching and one empty predicate-scoped section, and
both global fallbacks populated. -/
def configEx : Config :=
  { get := fun key => if key == "target.myhost.rustflags" then some ["-Cdirect"] else none
    target_cfgs := [("cfg(unix)", some ["-Ccfgscoped"]), ("cfg(foo)", none)]
    build_config := { rustflags := some ["-Cbuild"], rustdocflags := some ["-Dbuild"] } }

/-- Witness for C2: a concrete cross-compilation query (requested platform a
named target, resolving for host, environment set, host-scoped config entries
present) yields the empty list. -/
theorem env_args_cross_compilation_guard_wit :
    env_args (fun _ => some "-Cboom") (fun _ _ => true) configEx (.Target "other") "myhost"
      (some [Cfg.name "unix"]) .Host "RUSTFLAGS" = [] :=
  env_args_cross_compilation_guard _ _ configEx (.Target "other") "myhost"
    (some [Cfg.name "unix"]) .Host "RUSTFLAGS" rfl rfl

/-- Witness for C3: the environment value "-C a -C b" yields exactly the four
tokens, and the empty environment value yields the empty list, both against a
configuration store full of conflicting entries. -/
theorem env_args_environment_override_wit :
    env_args (fun _ => some "-C a -C b") (fun _ _ => true) configEx .Host "myhost"
      (some [Cfg.name "unix"]) .Host "RUSTFLAGS" = ["-C", "a", "-C", "b"]
    ∧ env_args (fun _ => some "") (fun _ _ => true) configEx .Host "myhost"
      (some [Cfg.name "unix"]) .Host "RUSTFLAGS" = [] :=
  ⟨(env_args_environment_override (fun _ => some "-C a -C b") (fun _ _ => true) configEx .Host
      "myhost" (some [Cfg.name "unix"]) .Host "RUSTFLAGS" "-C a -C b" rfl rfl).trans (by decide),
   (env_args_environment_override (fun _ => some "") (fun _ _ => true) configEx .Host
      "myhost" (some [Cfg.name "unix"]) .Host "RUSTFLAGS" "" rfl rfl).trans (by decide)⟩

/-- Witness for C1: with no environment override, the direct per-platform entry
is concatenated with the matching predicate-scoped entry and returned (global
fallback skipped); with the combined layer empty (no matching key, no matching
section), the global fallback is returned. -/
theorem env_args_config_precedence_wit :
    env_args (fun _ => none) (fun _ _ => true) configEx .Host "myhost"
      (some [Cfg.name "unix"]) .Host "RUSTFLAGS" = ["-Cdirect", "-Ccfgscoped"]
    ∧ env_args (fun _ => none) (fun _ _ => false) configEx .Host "elsewhere"
      (some [Cfg.name "unix"]) .Host "RUSTFLAGS" = ["-Cbuild"] :=
  ⟨(env_args_config_precedence (fun _ => none) (fun _ _ => true) configEx .Host "myhost"
      (some [Cfg.name "unix"]) .Host "RUSTFLAGS" rfl rfl).trans (by decide),
   (env_args_config_precedence (fun _ => none) (fun _ _ => false) configEx .Host "elsewhere"
      (some [Cfg.name "unix"]) .Host "RUSTFLAGS" rfl rfl).trans (by decide)⟩

/-! ## Claims about crate-type output parsing -/

/-- Claim C4: if some stderr line flags the crate type as unsupported or
unknown (with the backtick-quoted name), the parse returns the explicit
absence result and consumes no stdout line (so a stderr error line for crate
type X never consumes a stdout line intended for crate type Y); otherwise it
consumes exactly one stdout line and splits it on the triple underscore, and a
line with fewer than two parts is a fatal error whose message carries the full
command line and the captured stdout/stderr. -/
theorem parse_crate_type_protocol :
    (∀ (crate_type cmd output error : String) (lines : List String),
      crateTypeUnsupported error crate_type = true →
      parse_crate_type crate_type cmd output error lines = .ok (none, lines))
    ∧ (∀ (crate_type cmd output error line : String) (rest : List String)
        (p s : String) (t : List String),
      crateTypeUnsupported error crate_type = false →
      strSplitOn (strTrim line) "___" = p :: s :: t →
      parse_crate_type crate_type cmd output error (line :: rest) = .ok (some (p, s), rest))
    ∧ (∀ (crate_type cmd output error line : String) (rest : List String) (piece : String),
      crateTypeUnsupported error crate_type = false →
      strSplitOn (strTrim line) "___" = [piece] →
      parse_crate_type crate_type cmd output error (line :: rest) =
        .error ("output of --print=file-names has changed in the compiler, cannot parse\n"
          ++ output_err_info cmd output error))
    ∧ (∀ (cmd stdout stderr : String), stdout.isEmpty = false → stderr.isEmpty = false →
      output_err_info cmd stdout stderr =
        "command was: " ++ cmd ++ "\n" ++ "\n--- stdout\n" ++ stdout
          ++ "\n--- stderr\n" ++ stderr) := by
  refine ⟨?_, ?_, ?_, ?_⟩
  · intro crate_type cmd output error lines h
    simp [parse_crate_type, h]
  · intro crate_type cmd output error line rest p s t h hsplit
    simp [parse_crate_type, h, hsplit]
  · intro crate_type cmd output error line rest piece h hsplit
    simp [parse_crate_type, h, hsplit]
  · intro cmd stdout stderr h1 h2
    simp [output_err_info, h1, h2]

/-- Witness for C4: a concrete unsupported-type stderr line leaves the stdout
cursor untouched, a concrete well-formed line is consumed and split, and a
concrete delimiter-less line is the fatal error with the diagnostic block. -/
theorem parse_crate_type_protocol_wit :
    parse_crate_type "dylib" "cmd1" "x___y" "error: unsupported crate type `dylib` for target"
      ["x___y"] = .ok (none, ["x___y"])
    ∧ parse_crate_type "rlib" "cmd2" "lib___.rlib" "" ["lib___.rlib"] =
      .ok (some ("lib", ".rlib"), [])
    ∧ parse_crate_type "rlib" "cmd3" "garbage" "" ["garbage"] =
      .error ("output of --print=file-names has changed in the compiler, cannot parse\n"
        ++ output_err_info "cmd3" "garbage" "") :=
  ⟨parse_crate_type_protocol.1 "dylib" "cmd1" "x___y"
      "error: unsupported crate type `dylib` for target" ["x___y"] (by decide),
   parse_crate_type_protocol.2.1 "rlib" "cmd2" "lib___.rlib" "" "lib___.rlib" [] "lib" ".rlib" []
      (by decide) (by decide),
   parse_crate_type_protocol.2.2.1 "rlib" "cmd3" "garbage" "" "garbage" [] "garbage"
      (by decide) (by decide)⟩

/-! ## Claims about construction-time parse order -/

/-- Helper: when every requested crate type is supported and every
corresponding stdout line is well formed, the construction loop consumes
exactly one line per type, in request order, and leaves the rest of the
cursor untouched. -/
theorem parseCrateTypes_ok (cmd output error : String) :
    ∀ (types naming rest : List String),
      naming.length = types.length →
      (∀ t ∈ types, crateTypeUnsupported error t = false) →
      (∀ l ∈ naming, (naming_of_line l).isSome) →
      parseCrateTypes cmd output error types (naming ++ rest) =
        .ok (types.zip (naming.map naming_of_line), rest) := by
  intro types
  induction types with
  | nil =>
    intro naming rest hlen _ _
    have hn : naming = [] := List.eq_nil_of_length_eq_zero (by simpa using hlen)
    subst hn
    simp [parseCrateTypes]
  | cons t ts ih =>
    intro naming rest hlen hsup hline
    cases naming with
    | nil => simp at hlen
    | cons l ls =>
      have hsup_t : crateTypeUnsupported error t = false := hsup t (by simp)
      have hl : (naming_of_line l).isSome := hline l (by simp)
      obtain ⟨p, s, tl, hsplit⟩ : ∃ p s tl, strSplitOn (strTrim l) "___" = p :: s :: tl := by
        unfold naming_of_line at hl
        cases hsl : strSplitOn (strTrim l) "___" with
        | nil => rw [hsl] at hl; simp at hl
        | cons a as =>
          cases as with
          | nil => rw [hsl] at hl; simp at hl
          | cons b bs => exact ⟨a, b, bs, rfl⟩
      have hnaming : naming_of_line l = some (p, s) := by
        unfold naming_of_line; rw [hsplit]
      simp only [List.cons_append, parseCrateTypes, parse_crate_type, hsup_t, hsplit,
        Bool.false_eq_true, if_false]
      rw [ih ls rest (by simpa using hlen) (fun x hx => hsup x (by simp [hx]))
        (fun x hx => hline x (by simp [hx]))]
      simp [hnaming]

/-- Claim C5: for an accepted probe output, stdout is consumed in strict order
— one naming line per well-known crate type in the fixed request order, then
exactly one install-root line, then all remaining lines as predicates — the
target link-library directory is `<install-root>/lib/rustlib/<short-name>/lib`,
and a missing install-root line is a fatal error carrying the invocation and
the captured output. -/
theorem target_info_new_parse_order :
    (∀ (env : String → Option String) (matches_key : String → List Cfg → Bool)
       (config : Config) (requested_kind : CompileKind) (host_triple : String)
       (kind : CompileKind) (is_windows bitcode_probe_ok : Bool)
       (cmd output error : String) (naming : List String) (sys : String)
       (cfgLines : List String) (cs : List Cfg),
      rustLines output = naming ++ sys :: cfgLines →
      naming.length = KNOWN_CRATE_TYPES.length →
      (∀ t ∈ KNOWN_CRATE_TYPES, crateTypeUnsupported error t = false) →
      (∀ l ∈ naming, (naming_of_line l).isSome) →
      collectCfgs cfgLines = .ok cs →
      TargetInfo.new env matches_key config requested_kind host_triple kind is_windows
          bitcode_probe_ok cmd output error =
        .ok { crate_type_process := cmd
              crate_types := KNOWN_CRATE_TYPES.zip (naming.map naming_of_line)
              cfg := cs
              sysroot := [sys]
              sysroot_host_libdir := [sys, if is_windows then "bin" else "lib"]
              sysroot_target_libdir := [sys, "lib", "rustlib", kind.short_name host_triple, "lib"]
              rustflags := env_args env matches_key config requested_kind host_triple
                (some cs) kind "RUSTFLAGS"
              rustdocflags := env_args env matches_key config requested_kind host_triple
                (some cs) kind "RUSTDOCFLAGS"
              supports_bitcode_in_rlib :=
                match kind with
                | .Host => some bitcode_probe_ok
                | .Target _ => none })
    ∧ (∀ (env : String → Option String) (matches_key : String → List Cfg → Bool)
       (config : Config) (requested_kind : CompileKind) (host_triple : String)
       (kind : CompileKind) (is_windows bitcode_probe_ok : Bool)
       (cmd output error : String) (naming : List String),
      rustLines output = naming →
      naming.length = KNOWN_CRATE_TYPES.length →
      (∀ t ∈ KNOWN_CRATE_TYPES, crateTypeUnsupported error t = false) →
      (∀ l ∈ naming, (naming_of_line l).isSome) →
      TargetInfo.new env matches_key config requested_kind host_triple kind is_windows
          bitcode_probe_ok cmd output error =
        .error ("output of --print=sysroot missing when learning about target-specific information from rustc\n"
          ++ output_err_info cmd output error)) := by
  constructor
  · intro env matches_key config requested_kind host_triple kind is_windows bitcode_probe_ok
      cmd output error naming sys cfgLines cs hout hlen hsup hline hcfgs
    unfold TargetInfo.new
    rw [hout, parseCrateTypes_ok cmd output error KNOWN_CRATE_TYPES naming (sys :: cfgLines)
      hlen hsup hline]
    simp [hcfgs]
  · intro env matches_key config requested_kind host_triple kind is_windows bitcode_probe_ok
      cmd output error naming hout hlen hsup hline
    unfold TargetInfo.new
    rw [hout, ← List.append_nil naming, parseCrateTypes_ok cmd output error KNOWN_CRATE_TYPES
      naming [] hlen hsup hline]

/-- Witness for C5: a concrete nine-line probe output is decoded into the six
naming results in request order, the install root, and the two predicates,
with the target link-library directory derived from the install root; the same
output truncated after the naming lines is the fatal missing-sysroot error. -/
theorem target_info_new_parse_order_wit :
    TargetInfo.new (fun _ => none) (fun _ _ => false) configEx .Host "myhost"
        (.Target "some-target") false true "cmd"
        "___\nlib___.rlib\nlib___.so\nlib___.so\nlib___.a\nlib___.so\n/sys\nunix\ntarget_os=\"linux\"\n" "" =
      .ok { crate_type_process := "cmd"
            crate_types := [("bin", some ("", "")), ("rlib", some ("lib", ".rlib")),
              ("dylib", some ("lib", ".so")), ("cdylib", some ("lib", ".so")),
              ("staticlib", some ("lib", ".a")), ("proc-macro", some ("lib", ".so"))]
            cfg := [Cfg.name "unix", Cfg.keyPair "target_os" "linux"]
            sysroot := ["/sys"]
            sysroot_host_libdir := ["/sys", "lib"]
            sysroot_target_libdir := ["/sys", "lib", "rustlib", "some-target", "lib"]
            rustflags := ["-Cbuild"]
            rustdocflags := ["-Dbuild"]
            supports_bitcode_in_rlib := none }
    ∧ TargetInfo.new (fun _ => none) (fun _ _ => false) configEx .Host "myhost"
        (.Target "some-target") false true "cmd"
        "___\nlib___.rlib\nlib___.so\nlib___.so\nlib___.a\nlib___.so" "" =
      .error ("output of --print=sysroot missing when learning about target-specific information from rustc\n"
        ++ output_err_info "cmd" "___\nlib___.rlib\nlib___.so\nlib___.so\nlib___.a\nlib___.so" "") :=
  ⟨(target_info_new_parse_order.1 (fun _ => none) (fun _ _ => false) configEx .Host "myhost"
      (.Target "some-target") false true "cmd"
      "___\nlib___.rlib\nlib___.so\nlib___.so\nlib___.a\nlib___.so\n/sys\nunix\ntarget_os=\"linux\"\n" ""
      ["___", "lib___.rlib", "lib___.so", "lib___.so", "lib___.a", "lib___.so"] "/sys"
      ["unix", "target_os=\"linux\""] [Cfg.name "unix", Cfg.keyPair "target_os" "linux"]
      (by decide) (by decide) (by decide) (by decide) rfl).trans rfl,
   target_info_new_parse_order.2 (fun _ => none) (fun _ _ => false) configEx .Host "myhost"
      (.Target "some-target") false true "cmd"
      "___\nlib___.rlib\nlib___.so\nlib___.so\nlib___.a\nlib___.so" ""
      ["___", "lib___.rlib", "lib___.so", "lib___.so", "lib___.a", "lib___.so"]
      (by decide) (by decide) (by decide) (by decide)⟩

/-! ## Claims about the artifact file-plan rules -/

/-- Counterexample for C6 as frozen: the claim quantifies over every file-plan
query with a "wasm32-"-prefixed triple, crate type "bin" and primary suffix
".js" and asserts the plan has exactly two entries, but for an ordinary-binary
target kind on a "wasm32-"-prefixed triple that also ends in "-msvc" the
debug-database rule fires as well, producing a third entry. -/
theorem file_types_wasm_claim_cex :
    (make_file_types "bin" FileFlavor.Normal TargetKind.Bin "wasm32-pc-windows-msvc" "" ".js").length
      ≠ 2
    ∧ make_file_types "bin" FileFlavor.Normal TargetKind.Bin "wasm32-pc-windows-msvc" "" ".js" =
      [{ flavor := FileFlavor.Normal, suffix := ".js", prefix_str := "",
         should_replace_hyphens := false },
       { flavor := FileFlavor.Auxiliary, suffix := ".wasm", prefix_str := "",
         should_replace_hyphens := true },
       { flavor := FileFlavor.DebugInfo, suffix := ".pdb", prefix_str := "",
         should_replace_hyphens := true }] := by
  refine ⟨by decide, by decide⟩

/-- Claim C6 as amended: additionally requiring that the debug-symbol rule does
not also fire (the target kind/triple combination is not an ordinary binary or
apple example on an apple or msvc triple), the plan is exactly the primary
".js" entry without hyphen rewriting followed by the auxiliary ".wasm" entry
with the same prefix and the rewrite flag set; with the empty discovered
prefix, stem "my-app" resolves to "my-app.js" for the primary entry and
"my_app.wasm" for the auxiliary entry. -/
theorem file_types_wasm_rule (crate_type : String) (flavor : FileFlavor) (kind : TargetKind)
    (target_triple pre suffix : String)
    (hw : strStartsWith target_triple "wasm32-" = true)
    (hct : crate_type = "bin") (hsuf : suffix = ".js")
    (hdbg : (kind == TargetKind.Bin
        || (kind == TargetKind.ExampleBin && strContains target_triple "-apple-")) = false
      ∨ (strContains target_triple "-apple-" = false
        ∧ strEndsWith target_triple "-msvc" = false)) :
    make_file_types crate_type flavor kind target_triple pre suffix =
      [{ flavor := flavor, suffix := ".js", prefix_str := pre, should_replace_hyphens := false },
       { flavor := FileFlavor.Auxiliary, suffix := ".wasm", prefix_str := pre,
         should_replace_hyphens := true }]
    ∧ FileType.filename ⟨FileFlavor.Auxiliary, ".wasm", "", true⟩ "my-app" = "my_app.wasm"
    ∧ FileType.filename ⟨flavor, ".js", "", false⟩ "my-app" = "my-app.js" := by
  subst hct hsuf
  have h1 : strEndsWith "bin" "dylib" = false := by decide
  have h2 : ((".js" : String) == ".dll") = false := by decide
  have h3 : ((".js" : String) == ".js") = true := by decide
  have h4 : (("bin" : String) == "bin") = true := by decide
  refine ⟨?_, by decide, rfl⟩
  rcases hdbg with h | ⟨hap, hms⟩
  · simp [make_file_types, h1, h2, h3, h4, hw, h]
  · simp [make_file_types, h1, h2, h3, h4, hw, hap, hms]

/-- Witness for C6 (amended): the concrete emscripten-style query yields
exactly the two entries and the two concrete filenames. -/
theorem file_types_wasm_rule_wit :
    make_file_types "bin" FileFlavor.Normal TargetKind.Bin "wasm32-unknown-emscripten" "" ".js" =
      [{ flavor := FileFlavor.Normal, suffix := ".js", prefix_str := "",
         should_replace_hyphens := false },
       { flavor := FileFlavor.Auxiliary, suffix := ".wasm", prefix_str := "",
         should_replace_hyphens := true }]
    ∧ FileType.filename ⟨FileFlavor.Auxiliary, ".wasm", "", true⟩ "my-app" = "my_app.wasm"
    ∧ FileType.filename ⟨FileFlavor.Normal, ".js", "", false⟩ "my-app" = "my-app.js" :=
  file_types_wasm_rule "bin" FileFlavor.Normal TargetKind.Bin "wasm32-unknown-emscripten"
    "" ".js" (by decide) rfl rfl (Or.inr ⟨by decide, by decide⟩)

/-- Helper: `make_file_types` decomposed into the primary entry followed by the
three independently conditioned auxiliary segments, in source order. -/
theorem make_file_types_decomp (crate_type : String) (flavor : FileFlavor)
    (kind : TargetKind) (target_triple pre suffix : String) :
    make_file_types crate_type flavor kind target_triple pre suffix =
      [⟨flavor, suffix, pre, false⟩]
      ++ (if strEndsWith target_triple "-windows-msvc" && strEndsWith crate_type "dylib"
            && (suffix == ".dll") then
          [⟨FileFlavor.Normal, ".dll.lib", pre, false⟩] else [])
      ++ (if strStartsWith target_triple "wasm32-" && (crate_type == "bin")
            && (suffix == ".js") then
          [⟨FileFlavor.Auxiliary, ".wasm", pre, true⟩] else [])
      ++ (if kind == TargetKind.Bin
            || (kind == TargetKind.ExampleBin && strContains target_triple "-apple-") then
          (if strContains target_triple "-apple-" then [⟨FileFlavor.DebugInfo, ".dSYM", pre, false⟩]
           else if strEndsWith target_triple "-msvc" then [⟨FileFlavor.DebugInfo, ".pdb", pre, true⟩]
           else [])
          else []) := by
  unfold make_file_types
  cases h1 : (strEndsWith target_triple "-windows-msvc" && strEndsWith crate_type "dylib"
      && (suffix == ".dll")) <;>
    cases h2 : (strStartsWith target_triple "wasm32-" && (crate_type == "bin")
      && (suffix == ".js")) <;>
    by_cases hb : kind = TargetKind.Bin <;>
    by_cases he : kind = TargetKind.ExampleBin <;>
    cases h4 : strContains target_triple "-apple-" <;>
    cases h5 : strEndsWith target_triple "-msvc" <;>
      simp_all

/-- Helper: membership in a conditional singleton segment. -/
theorem mem_if_singleton {α : Type} {b : Bool} {x ft : α}
    (h : ft ∈ (if b = true then [x] else [])) : ft = x := by
  cases b <;> simp_all

/-- Helper: membership in the conditional debug-symbol segment. -/
theorem mem_debug_tail {α : Type} {b1 b2 b3 : Bool} {x y ft : α}
    (h : ft ∈ (if b1 = true then
      (if b2 = true then [x] else if b3 = true then [y] else []) else [])) :
    ft = x ∨ ft = y := by
  cases b1 <;> cases b2 <;> cases b3 <;> simp_all

/-- Claim C7: on a triple ending in "-windows-msvc", when the crate type is a
dynamic-library variant (name ending in "dylib") and the discovered primary
suffix is exactly ".dll", the entry immediately after the primary one is the
import-library entry: suffix ".dll.lib", same prefix, ordinary flavor, no
hyphen rewriting; when the crate type is not a dynamic-library variant or the
primary suffix is not ".dll", no ".dll.lib" entry is ever appended after the
primary entry. -/
theorem file_types_msvc_import_lib (crate_type : String) (flavor : FileFlavor)
    (kind : TargetKind) (target_triple pre suffix : String)
    (hmsvc : strEndsWith target_triple "-windows-msvc" = true) :
    (strEndsWith crate_type "dylib" = true → suffix = ".dll" →
      ∃ rest, make_file_types crate_type flavor kind target_triple pre suffix =
        ⟨flavor, ".dll", pre, false⟩ :: ⟨FileFlavor.Normal, ".dll.lib", pre, false⟩ :: rest)
    ∧ (strEndsWith crate_type "dylib" = false ∨ suffix ≠ ".dll" →
      ∀ ft ∈ (make_file_types crate_type flavor kind target_triple pre suffix).drop 1,
        ft.suffix ≠ ".dll.lib") := by
  constructor
  · intro hdy hsuf
    subst hsuf
    have h5 : ((".dll" : String) == ".dll") = true := by decide
    rw [make_file_types_decomp]
    simp only [hmsvc, hdy, h5, Bool.and_self, Bool.true_and, Bool.and_true, if_true,
      List.singleton_append, List.cons_append]
    exact ⟨_, rfl⟩
  · intro hneg ft hft
    have hc1 : (strEndsWith target_triple "-windows-msvc" && strEndsWith crate_type "dylib"
        && (suffix == ".dll")) = false := by
      rcases hneg with h | h
      · simp [h]
      · have hx : (suffix == ".dll") = false := by simpa using h
        simp [hx]
    rw [make_file_types_decomp] at hft
    simp only [hc1, Bool.false_eq_true, if_false, List.append_assoc, List.singleton_append,
      List.nil_append, List.drop_succ_cons, List.drop_zero, List.append_eq,
      List.mem_append] at hft
    rcases List.mem_append.mp hft with hft1 | hft1
    · have hx := mem_if_singleton hft1
      subst hx
      simp
    · rcases mem_debug_tail hft1 with rfl | rfl <;> simp

/-- Witness for C7: the concrete cdylib query on an msvc triple yields the
primary ".dll" entry immediately followed by the ".dll.lib" import-library
entry with the same prefix. -/
theorem file_types_msvc_import_lib_wit :
    ∃ rest, make_file_types "cdylib" (FileFlavor.Linkable false) (TargetKind.Lib ["cdylib"])
        "x86_64-pc-windows-msvc" "" ".dll" =
      ⟨FileFlavor.Linkable false, ".dll", "", false⟩
        :: ⟨FileFlavor.Normal, ".dll.lib", "", false⟩ :: rest :=
  (file_types_msvc_import_lib "cdylib" (FileFlavor.Linkable false) (TargetKind.Lib ["cdylib"])
    "x86_64-pc-windows-msvc" "" ".dll" (by decide)).1 (by decide) rfl

/-- Counterexample for C8 as frozen: the claim says a debug-symbol entry is
appended exactly when the target kind is an ordinary binary (or an apple-triple
example binary), but for an ordinary binary on a plain Linux triple — neither
apple nor msvc — the source appends nothing, so the "exactly when" equivalence
fails at this input. -/
theorem file_types_debug_claim_cex :
    ¬ ((((make_file_types "bin" FileFlavor.Normal TargetKind.Bin "x86_64-unknown-linux-gnu"
          "" "").drop 1).any (fun ft => ft.flavor == FileFlavor.DebugInfo) = true) ↔
      (TargetKind.Bin = TargetKind.Bin
        ∨ (TargetKind.Bin = TargetKind.ExampleBin
          ∧ strContains "x86_64-unknown-linux-gnu" "-apple-" = true))) := by
  decide

/-- Claim C8 as amended: a debug-symbol entry is appended only when the target
kind is an ordinary binary, or an example binary on an apple triple; within
that, on apple triples it is the ".dSYM" bundle entry without hyphen
rewriting, on triples ending in "-msvc" it is the ".pdb" entry with the
rewrite flag set, and on any other triple nothing is appended even for an
ordinary binary; when the kind condition fails (tests, non-apple examples,
libraries), no debug-symbol entry is ever appended. -/
theorem file_types_debug_rule (crate_type : String) (flavor : FileFlavor) (kind : TargetKind)
    (target_triple pre suffix : String) :
    ((kind == TargetKind.Bin
        || (kind == TargetKind.ExampleBin && strContains target_triple "-apple-")) = true →
      strContains target_triple "-apple-" = true →
      (make_file_types crate_type flavor kind target_triple pre suffix).getLast? =
        some ⟨FileFlavor.DebugInfo, ".dSYM", pre, false⟩)
    ∧ ((kind == TargetKind.Bin
        || (kind == TargetKind.ExampleBin && strContains target_triple "-apple-")) = true →
      strContains target_triple "-apple-" = false →
      strEndsWith target_triple "-msvc" = true →
      (make_file_types crate_type flavor kind target_triple pre suffix).getLast? =
        some ⟨FileFlavor.DebugInfo, ".pdb", pre, true⟩)
    ∧ ((kind == TargetKind.Bin
        || (kind == TargetKind.ExampleBin && strContains target_triple "-apple-")) = true →
      strContains target_triple "-apple-" = false →
      strEndsWith target_triple "-msvc" = false →
      ∀ ft ∈ (make_file_types crate_type flavor kind target_triple pre suffix).drop 1,
        ft.flavor ≠ FileFlavor.DebugInfo)
    ∧ ((kind == TargetKind.Bin
        || (kind == TargetKind.ExampleBin && strContains target_triple "-apple-")) = false →
      ∀ ft ∈ (make_file_types crate_type flavor kind target_triple pre suffix).drop 1,
        ft.flavor ≠ FileFlavor.DebugInfo) := by
  refine ⟨?_, ?_, ?_, ?_⟩
  · intro h3 h4
    rw [make_file_types_decomp, if_pos h3, if_pos h4, List.getLast?_concat]
  · intro h3 h4 h5
    have h4x : ¬ (strContains target_triple "-apple-" = true) := by simp [h4]
    rw [make_file_types_decomp, if_pos h3, if_neg h4x, if_pos h5, List.getLast?_concat]
  · intro h3 h4 h5 ft hft
    have h4x : ¬ (strContains target_triple "-apple-" = true) := by simp [h4]
    have h5x : ¬ (strEndsWith target_triple "-msvc" = true) := by simp [h5]
    rw [make_file_types_decomp, if_pos h3, if_neg h4x, if_neg h5x, List.append_nil] at hft
    simp only [List.append_assoc, List.singleton_append, List.drop_succ_cons,
      List.drop_zero] at hft
    rcases List.mem_append.mp hft with hft1 | hft1 <;>
      · have hx := mem_if_singleton hft1
        subst hx
        simp
  · intro h3 ft hft
    have h3x : ¬ ((kind == TargetKind.Bin
        || (kind == TargetKind.ExampleBin && strContains target_triple "-apple-")) = true) := by
      simp [h3]
    rw [make_file_types_decomp, if_neg h3x, List.append_nil] at hft
    simp only [List.append_assoc, List.singleton_append, List.drop_succ_cons,
      List.drop_zero] at hft
    rcases List.mem_append.mp hft with hft1 | hft1 <;>
      · have hx := mem_if_singleton hft1
        subst hx
        simp

/-- Witness for C8 (amended): an ordinary binary on a concrete apple triple
gets the ".dSYM" bundle entry, on a concrete msvc triple gets the ".pdb" entry
with hyphen rewriting, and a test target on the same apple triple gets no
debug-symbol entry. -/
theorem file_types_debug_rule_wit :
    (make_file_types "bin" FileFlavor.Normal TargetKind.Bin "aarch64-apple-darwin" "" "").getLast?
      = some ⟨FileFlavor.DebugInfo, ".dSYM", "", false⟩
    ∧ (make_file_types "bin" FileFlavor.Normal TargetKind.Bin "x86_64-pc-windows-msvc" ""
        ".exe").getLast? = some ⟨FileFlavor.DebugInfo, ".pdb", "", true⟩
    ∧ ∀ ft ∈ (make_file_types "bin" FileFlavor.Normal TargetKind.Test "aarch64-apple-darwin"
        "" "").drop 1, ft.flavor ≠ FileFlavor.DebugInfo :=
  ⟨(file_types_debug_rule "bin" FileFlavor.Normal TargetKind.Bin "aarch64-apple-darwin" ""
      "").1 (by decide) (by decide),
   (file_types_debug_rule "bin" FileFlavor.Normal TargetKind.Bin "x86_64-pc-windows-msvc" ""
      ".exe").2.1 (by decide) (by decide) (by decide),
   (file_types_debug_rule "bin" FileFlavor.Normal TargetKind.Test "aarch64-apple-darwin" ""
      "").2.2.2 (by decide)⟩

/-! ## Claims about the predicate filter -/

/-- Helper: every element of a successfully collected list occurs as a success
in the input list. -/
theorem collectResults_mem :
    ∀ (l : List (Except String Cfg)) (cs : List Cfg), collectResults l = .ok cs →
      ∀ c ∈ cs, Except.ok c ∈ l := by
  intro l
  induction l with
  | nil =>
    intro cs h c hc
    simp [collectResults] at h
    subst h
    simp at hc
  | cons x xs ih =>
    intro cs h c hc
    cases x with
    | error e => simp [collectResults] at h
    | ok y =>
      simp only [collectResults] at h
      cases hrec : collectResults xs with
      | error e => rw [hrec] at h; simp at h
      | ok ys =>
        rw [hrec] at h
        simp only [Except.ok.injEq] at h
        subst h
        rcases List.mem_cons.mp hc with rfl | hc2
        · exact List.mem_cons_self _ _
        · exact List.mem_cons_of_mem _ (ih ys hrec c hc2)

/-- Claim C9: the predicate filter removes exactly the bare `proc_macro`
marker and nothing else — a bare `debug_assertions` predicate and any
name=value predicate (even one named `proc_macro`) are retained — and the
collected predicate list exposed to callers never contains the bare
`proc_macro` marker. -/
theorem not_user_specific_cfg_exact :
    (∀ r : Except String Cfg,
      TargetInfo.not_user_specific_cfg r = false ↔ r = .ok (Cfg.name "proc_macro"))
    ∧ TargetInfo.not_user_specific_cfg (.ok (Cfg.name "debug_assertions")) = true
    ∧ (∀ v : String, TargetInfo.not_user_specific_cfg (.ok (Cfg.keyPair "proc_macro" v)) = true)
    ∧ (∀ (lines : List String) (cs : List Cfg), collectCfgs lines = .ok cs →
      Cfg.name "proc_macro" ∉ cs) := by
  refine ⟨?_, by decide, ?_, ?_⟩
  · intro r
    constructor
    · intro h
      cases r with
      | error e => simp [TargetInfo.not_user_specific_cfg] at h
      | ok c =>
        cases c with
        | name n =>
          simp only [TargetInfo.not_user_specific_cfg] at h
          cases hb : n == "proc_macro"
          · rw [hb] at h; simp at h
          · have : n = "proc_macro" := by simpa using hb
            subst this
            rfl
        | keyPair k v => simp [TargetInfo.not_user_specific_cfg] at h
    · intro h
      subst h
      decide
  · intro v
    simp [TargetInfo.not_user_specific_cfg]
  · intro lines cs h hc
    have hmem := collectResults_mem _ _ h _ hc
    have hfil := (List.mem_filter.mp hmem).2
    have : TargetInfo.not_user_specific_cfg (.ok (Cfg.name "proc_macro")) = false := by decide
    rw [this] at hfil
    exact Bool.false_ne_true hfil

/-- Witness for C9: a concrete predicate listing keeps `unix` and the
name=value `proc_macro` pair, drops the bare `proc_macro` marker, and the
result indeed does not contain the marker. -/
theorem not_user_specific_cfg_exact_wit :
    collectCfgs ["unix", "proc_macro", "proc_macro=\"x\""] =
      .ok [Cfg.name "unix", Cfg.keyPair "proc_macro" "x"]
    ∧ Cfg.name "proc_macro" ∉ [Cfg.name "unix", Cfg.keyPair "proc_macro" "x"] :=
  ⟨rfl,
   not_user_specific_cfg_exact.2.2.2 ["unix", "proc_macro", "proc_macro=\"x\""]
     [Cfg.name "unix", Cfg.keyPair "proc_macro" "x"] rfl⟩

/-! ## Claims about the crate-type naming cache -/

/-- Helper: a lookup that succeeds on `l` succeeds unchanged on `l ++ l2`. -/
theorem lookup_append_some {α β : Type} [BEq α] (k : α) (l l2 : List (α × β)) (w : β)
    (h : List.lookup k l = some w) : List.lookup k (l ++ l2) = some w := by
  induction l with
  | nil => simp [List.lookup] at h
  | cons e es ih =>
    cases hb : k == e.1
    · simp only [List.lookup, hb] at h
      simpa [List.lookup, hb] using ih h
    · simp only [List.lookup, hb] at h
      simpa [List.lookup, hb] using h

/-- Helper: inserting a fresh key at the back makes its lookup succeed. -/
theorem lookup_append_fresh {α β : Type} [BEq α] [LawfulBEq α] (k : α) (l : List (α × β)) (v : β)
    (h : List.lookup k l = none) : List.lookup k (l ++ [(k, v)]) = some v := by
  induction l with
  | nil => simp [List.lookup]
  | cons e es ih =>
    cases hb : k == e.1
    · simp only [List.lookup, hb] at h
      simpa [List.lookup, hb] using ih h
    · simp [List.lookup, hb] at h

/-- Claim C10: querying a not-yet-discovered crate type runs the discovery
probe exactly once and memoizes its value, so an immediately repeated query is
answered from the cache with the same result and no further invocation; every
query leaves already present cache entries unchanged (the cache only grows);
and no query changes the predicate list, the resolved paths, the resolved
flags, the saved probe template, or the feature-support flag. -/
theorem file_types_cache_memoization :
    (∀ (discover : String → Except String (Option (String × String)))
       (ti : TargetInfoData) (crate_type : String) (flavor : FileFlavor)
       (kind : TargetKind) (target_triple : String) (v : Option (String × String)),
      List.lookup crate_type ti.crate_types = none →
      discover crate_type = .ok v →
      ∃ r, TargetInfo.file_types discover ti crate_type flavor kind target_triple =
          .ok (r, { ti with crate_types := ti.crate_types ++ [(crate_type, v)] }, 1)
        ∧ TargetInfo.file_types discover
            { ti with crate_types := ti.crate_types ++ [(crate_type, v)] }
            crate_type flavor kind target_triple =
          .ok (r, { ti with crate_types := ti.crate_types ++ [(crate_type, v)] }, 0))
    ∧ (∀ (discover : String → Except String (Option (String × String)))
       (ti : TargetInfoData) (crate_type : String) (flavor : FileFlavor)
       (kind : TargetKind) (target_triple : String) (r : Option (List FileType))
       (ti1 : TargetInfoData) (n : Nat) (k : String) (w : Option (String × String)),
      TargetInfo.file_types discover ti crate_type flavor kind target_triple = .ok (r, ti1, n) →
      List.lookup k ti.crate_types = some w →
      List.lookup k ti1.crate_types = some w)
    ∧ (∀ (discover : String → Except String (Option (String × String)))
       (ti : TargetInfoData) (crate_type : String) (flavor : FileFlavor)
       (kind : TargetKind) (target_triple : String) (r : Option (List FileType))
       (ti1 : TargetInfoData) (n : Nat),
      TargetInfo.file_types discover ti crate_type flavor kind target_triple = .ok (r, ti1, n) →
      ti1.cfg = ti.cfg ∧ ti1.sysroot = ti.sysroot
        ∧ ti1.sysroot_host_libdir = ti.sysroot_host_libdir
        ∧ ti1.sysroot_target_libdir = ti.sysroot_target_libdir
        ∧ ti1.rustflags = ti.rustflags ∧ ti1.rustdocflags = ti.rustdocflags
        ∧ ti1.crate_type_process = ti.crate_type_process
        ∧ ti1.supports_bitcode_in_rlib = ti.supports_bitcode_in_rlib) := by
  refine ⟨?_, ?_, ?_⟩
  · intro discover ti crate_type flavor kind target_triple v hmiss hdisc
    have hhit : List.lookup crate_type
        (ti.crate_types ++ [(crate_type, v)]) = some v :=
      lookup_append_fresh crate_type ti.crate_types v hmiss
    cases v with
    | none =>
      refine ⟨none, ?_, ?_⟩
      · simp [TargetInfo.file_types, hmiss, hdisc]
      · simp [TargetInfo.file_types, hhit]
    | some pair =>
      refine ⟨some (make_file_types crate_type flavor kind target_triple pair.1 pair.2), ?_, ?_⟩
      · simp [TargetInfo.file_types, hmiss, hdisc]
      · simp [TargetInfo.file_types, hhit]
  · intro discover ti crate_type flavor kind target_triple r ti1 n k w h hk
    unfold TargetInfo.file_types at h
    cases hl : List.lookup crate_type ti.crate_types with
    | some info =>
      rw [hl] at h
      cases info with
      | none =>
        simp only [Except.ok.injEq, Prod.mk.injEq] at h
        rw [← h.2.1]
        exact hk
      | some pair =>
        simp only [Except.ok.injEq, Prod.mk.injEq] at h
        rw [← h.2.1]
        exact hk
    | none =>
      rw [hl] at h
      cases hd : discover crate_type with
      | error e => rw [hd] at h; simp at h
      | ok value =>
        rw [hd] at h
        cases value with
        | none =>
          simp only [Except.ok.injEq, Prod.mk.injEq] at h
          rw [← h.2.1]
          exact lookup_append_some k ti.crate_types _ w hk
        | some pair =>
          simp only [Except.ok.injEq, Prod.mk.injEq] at h
          rw [← h.2.1]
          exact lookup_append_some k ti.crate_types _ w hk
  · intro discover ti crate_type flavor kind target_triple r ti1 n h
    unfold TargetInfo.file_types at h
    cases hl : List.lookup crate_type ti.crate_types with
    | some info =>
      rw [hl] at h
      cases info with
      | none =>
        simp only [Except.ok.injEq, Prod.mk.injEq] at h
        rw [← h.2.1]
        exact ⟨rfl, rfl, rfl, rfl, rfl, rfl, rfl, rfl⟩
      | some pair =>
        simp only [Except.ok.injEq, Prod.mk.injEq] at h
        rw [← h.2.1]
        exact ⟨rfl, rfl, rfl, rfl, rfl, rfl, rfl, rfl⟩
    | none =>
      rw [hl] at h
      cases hd : discover crate_type with
      | error e => rw [hd] at h; simp at h
      | ok value =>
        rw [hd] at h
        cases value with
        | none =>
          simp only [Except.ok.injEq, Prod.mk.injEq] at h
          rw [← h.2.1]
          exact ⟨rfl, rfl, rfl, rfl, rfl, rfl, rfl, rfl⟩
        | some pair =>
          simp only [Except.ok.injEq, Prod.mk.injEq] at h
          rw [← h.2.1]
          exact ⟨rfl, rfl, rfl, rfl, rfl, rfl, rfl, rfl⟩

/-- Example platform info used by the cache witness: one cached entry and the
construction-time immutable fields populated. -/
def tiEx : TargetInfoData :=
  { crate_type_process := "rustc - --crate-name ___ --print=file-names"
    crate_types := [("bin", some ("", ""))]
    cfg := [Cfg.name "unix"]
    sysroot := ["/sys"]
    sysroot_host_libdir := ["/sys", "lib"]
    sysroot_target_libdir := ["/sys", "lib", "rustlib", "myhost", "lib"]
    rustflags := []
    rustdocflags := []
    supports_bitcode_in_rlib := some true }

/-- Witness for C10: two sequential queries for the not-yet-discovered crate
type "dylib" on a concrete instance run the probe exactly once; the second
query is answered from the memoized entry with no further invocation. -/
theorem file_types_cache_memoization_wit :
    ∃ r, TargetInfo.file_types (fun _ => .ok (some ("lib", ".so"))) tiEx "dylib"
        FileFlavor.Normal TargetKind.Bin "x86_64-unknown-linux-gnu" =
        .ok (r, { tiEx with crate_types := tiEx.crate_types ++ [("dylib", some ("lib", ".so"))] }, 1)
      ∧ TargetInfo.file_types (fun _ => .ok (some ("lib", ".so")))
          { tiEx with crate_types := tiEx.crate_types ++ [("dylib", some ("lib", ".so"))] }
          "dylib" FileFlavor.Normal TargetKind.Bin "x86_64-unknown-linux-gnu" =
        .ok (r, { tiEx with crate_types := tiEx.crate_types ++ [("dylib", some ("lib", ".so"))] }, 0) :=
  file_types_cache_memoization.1 (fun _ => .ok (some ("lib", ".so"))) tiEx "dylib"
    FileFlavor.Normal TargetKind.Bin "x86_64-unknown-linux-gnu" (some ("lib", ".so")) rfl rfl
